import Mathlib

/-!
Verification of the Sia storage-contract subsystem (`sia/contracts.go`).

The Go code is shallowly embedded: the consensus `State` is a structure,
Go maps become association lists with replace-on-insert semantics (matching
Go's `m[k] = v`), and operations that can panic in Go (nil-pointer
dereference on a missing map entry holding pointers, integer division or
modulus by zero, `big.Int.Mod` with zero modulus) return `Option`/`Except`
with `none`/`error` standing for the panic.

Go's `Currency` fields (`ContractFund`, payouts, `FundsRemaining`, output
values) are compared against `0` with signed comparison in the source
(`validContract` checks `c.ContractFund < 0`), so they are embedded as `Int`.
Block heights and counters are embedded as `Nat`; the only unsigned
subtractions in the source (`s.Height() - Start`, used solely under the
conjunct `s.Height() > Start`, and `windowIndex*Start - 1`, modelled with an
explicit wraparound modulo `2^64`) are handled where they occur.
-/

/-- A file contract, embedded field-for-field from the Go `FileContract`
used by `contracts.go`. Addresses, the contract ID and the Merkle root are
opaque to this file and embedded as `Nat`. `End` is spelled `end_` because
`end` is a Lean keyword. -/
structure FileContract where
  contractFund : Int
  start : Nat
  end_ : Nat
  challengeFrequency : Nat
  tolerance : Nat
  fileSize : Nat
  fileMerkleRoot : Nat
  validProofPayout : Int
  validProofAddress : Nat
  missedProofPayout : Int
  missedProofAddress : Nat
deriving Repr, DecidableEq

/-- Mutable per-contract runtime record, from the Go `OpenContract`.
In Go the ledger map stores a pointer to this record; here the record is a
value and every mutation is written back into the map explicitly. -/
structure OpenContract where
  fileContract : FileContract
  contractID : Nat
  fundsRemaining : Int
  failures : Nat
  windowSatisfied : Bool
deriving Repr, DecidableEq

/-- A spendable ledger output (`Output` in Go). -/
structure Output where
  value : Int
  spendHash : Nat
deriving Repr, DecidableEq

/-- Go's zero value for `Output`, returned by a map read of an absent key. -/
def Output.zero : Output := { value := 0, spendHash := 0 }

/-- Deterministic output identifiers. The Go derivation functions
`StorageProofOutputID` and `ContractTerminationOutputID` live outside this
file; the spec requires them to be injective and stable across nodes, which
the two constructors realize by construction. -/
inductive OutputID where
  | storageProof (contractID : Nat) (height : Nat) (success : Bool)
  | contractTermination (contractID : Nat) (failureTriggered : Bool)
deriving Repr, DecidableEq

/-- Modelled from the spec: `StorageProofOutputID(contractID, height,
success)` is the deterministic, injective "storage proof" output-ID
derivation consumed from the external library. The spec gives it no failure
condition, so the model is total and the Go `err != nil` branches guarding
it (which panic) are unreachable here. -/
def FileContract.StorageProofOutputID (_c : FileContract) (contractID : Nat)
    (height : Nat) (success : Bool) : OutputID :=
  OutputID.storageProof contractID height success

/-- Modelled from the spec: `ContractTerminationOutputID(contractID,
failureTriggered)`, the deterministic, injective termination output-ID
derivation consumed from the external library. -/
def FileContract.ContractTerminationOutputID (_c : FileContract)
    (contractID : Nat) (failureTriggered : Bool) : OutputID :=
  OutputID.contractTermination contractID failureTriggered

/-- Per-block audit record for a missed storage proof (`MissedStorageProof`
in Go): the created output ID plus the contract it belongs to. -/
structure MissedStorageProof where
  outputID : OutputID
  contractID : Nat
deriving Repr, DecidableEq

/-- The mutable metadata node of the current block (the part of the Go
`BlockNode` that `contracts.go` touches): the two per-block audit lists. -/
structure BlockNode where
  missedStorageProofs : List MissedStorageProof
  contractTerminations : List OpenContract
deriving Repr, DecidableEq

/-- Storage-proof transaction payload (`StorageProof` in Go). `Segment` and
`HashSet` are consumed only by the external Merkle verification and are
embedded as opaque numbers. -/
structure StorageProof where
  contractID : Nat
  segment : Nat
  hashSet : List Nat
deriving Repr, DecidableEq

/-- The slice of the consensus `State` that `contracts.go` reads and
writes: the height accessor `s.Height()`, the canonical path
`s.CurrentPath` (a Go map from height to block ID), the open-contract map,
the unspent-output map, and the current block's metadata node
(`s.currentBlockNode()`). The two Go maps keyed by IDs are embedded as
association lists; `OpenContracts` entries are keyed by the
`contractID` field of the stored record, which is how every insertion in
the source keys them. -/
structure State where
  height : Nat
  currentPath : List (Nat × Nat)
  openContracts : List OpenContract
  unspentOutputs : List (OutputID × Output)
  blockNode : BlockNode
deriving Repr, DecidableEq

/-- Go map read `s.CurrentPath[h]`: zero block ID when the key is absent. -/
def pathLookup (l : List (Nat × Nat)) (h : Nat) : Nat :=
  match l with
  | [] => 0
  | x :: xs => if x.1 = h then x.2 else pathLookup xs h

/-- Go map read `s.OpenContracts[id]` (pointer value): `none` models the
nil pointer obtained for an absent key. -/
def ocLookup (l : List OpenContract) (id : Nat) : Option OpenContract :=
  match l with
  | [] => none
  | oc :: rest => if oc.contractID = id then some oc else ocLookup rest id

/-- Go map write `s.OpenContracts[id] = oc`: replaces the entry with that
key if present, otherwise appends. -/
def ocInsert (l : List OpenContract) (id : Nat) (oc : OpenContract) :
    List OpenContract :=
  match l with
  | [] => [oc]
  | x :: xs => if x.contractID = id then oc :: xs else x :: ocInsert xs id oc

/-- Go `delete(s.OpenContracts, id)`. -/
def ocErase (l : List OpenContract) (id : Nat) : List OpenContract :=
  l.filter (fun oc => oc.contractID ≠ id)

/-- In-place mutation through the pointer held in the map
(`s.OpenContracts[id].Field = ...`): rewrite the entry with that key. -/
def ocModify (l : List OpenContract) (id : Nat) (f : OpenContract → OpenContract) :
    List OpenContract :=
  l.map (fun oc => if oc.contractID = id then f oc else oc)

/-- Go map read `s.UnspentOutputs[k]` as an `Option` (Go's `m[k]`,
combined with `Output.zero` at use sites where Go takes the zero value). -/
def outLookup (l : List (OutputID × Output)) (k : OutputID) : Option Output :=
  match l with
  | [] => none
  | x :: xs => if x.1 = k then some x.2 else outLookup xs k

/-- Go map write `s.UnspentOutputs[k] = v`: replace-or-append. -/
def outInsert (l : List (OutputID × Output)) (k : OutputID) (v : Output) :
    List (OutputID × Output) :=
  match l with
  | [] => [(k, v)]
  | x :: xs => if x.1 = k then (k, v) :: xs else x :: outInsert xs k v

/-- Go `delete(s.UnspentOutputs, k)`. -/
def outErase (l : List (OutputID × Output)) (k : OutputID) :
    List (OutputID × Output) :=
  l.filter (fun x => x.1 ≠ k)

/-- Window-lookup failure: the contract has no active challenge window. -/
inductive WindowErr where
  | noWindow
deriving Repr, DecidableEq

/-- Modelled from the spec: `contract.WindowIndex(height)` (implemented
outside this file) looks up the contract's challenge-window index for the
given height and fails with `NoWindow` when the contract has no active
window there. Per the spec the contract is active on `[Start, End)` with
windows beginning strictly after `Start` (the first window is free because
`Start` is in the future at formation), so the model reports `NoWindow`
outside `Start < height < End` and otherwise numbers windows by completed
`ChallengeFrequency` periods since `Start`. -/
def FileContract.WindowIndex (c : FileContract) (height : Nat) :
    Except WindowErr Nat :=
  if height ≤ c.start ∨ c.end_ ≤ height then Except.error WindowErr.noWindow
  else Except.ok ((height - c.start) / c.challengeFrequency)

/-- `currentProofIndex` from `contracts.go`. The external hash over the
concatenated trigger-block ID and contract ID is abstracted as the
parameter `hashB` (its output interpreted as the unsigned integer value of
the digest). `none` models a Go panic: the nil-pointer dereference when the
contract is absent, and `big.Int.Mod` with zero modulus (division by zero)
when `FileSize` is `0`. When `WindowIndex` fails the Go code takes a bare
`return`, yielding the named result's zero value `0`. `triggerBlock`
reproduces the source's unsigned `windowIndex*contract.Start - 1` with
explicit wraparound modulo `2^64`. -/
def currentProofIndex (hashB : List Nat → Nat) (s : State) (sp : StorageProof) :
    Option Nat :=
  match ocLookup s.openContracts sp.contractID with
  | none => none
  | some oc =>
    let contract := oc.fileContract
    match contract.WindowIndex s.height with
    | Except.error _ => some 0
    | Except.ok windowIndex =>
      let triggerBlock := (windowIndex * contract.start + (2 ^ 64 - 1)) % 2 ^ 64
      let triggerBlockID := pathLookup s.currentPath triggerBlock
      let indexSeed := hashB [triggerBlockID, sp.contractID]
      if contract.fileSize = 0 then none
      else some (indexSeed % contract.fileSize)

/-- `applyStorageProof` from `contracts.go`. `none` models the nil-pointer
panic when `sp.ContractID` is not an open contract; otherwise the
valid-proof output is written into the unspent-output map (Go map
assignment: replace-or-append) and the contract's `WindowSatisfied` and
`FundsRemaining` fields are mutated through the map pointer. -/
def applyStorageProof (s : State) (sp : StorageProof) : Option State :=
  match ocLookup s.openContracts sp.contractID with
  | none => none
  | some openContract =>
    let payout :=
      if openContract.fundsRemaining < openContract.fileContract.validProofPayout
      then openContract.fundsRemaining
      else openContract.fileContract.validProofPayout
    let output : Output :=
      { value := payout, spendHash := openContract.fileContract.validProofAddress }
    let outputID :=
      openContract.fileContract.StorageProofOutputID openContract.contractID s.height true
    some { s with
      unspentOutputs := outInsert s.unspentOutputs outputID output,
      openContracts := ocModify s.openContracts sp.contractID
        (fun oc => { oc with
          windowSatisfied := true,
          fundsRemaining := oc.fundsRemaining - payout }) }

/-- `validContract` from `contracts.go`, error strings included verbatim. -/
def validContract (s : State) (c : FileContract) : Except String Unit :=
  if c.contractFund < 0 then Except.error "contract must be funded."
  else if c.start < s.height then Except.error "contract must start in the future."
  else if c.end_ ≤ c.start then Except.error "contract duration must be at least one block."
  else Except.ok ()

/-- `addContract` from `contracts.go`: builds the fresh `OpenContract`
record and writes it into the map unconditionally (Go map assignment). -/
def addContract (s : State) (contract : FileContract) (id : Nat) : State :=
  let openContract : OpenContract :=
    { fileContract := contract
      contractID := id
      fundsRemaining := contract.contractFund
      failures := 0
      windowSatisfied := true }
  { s with openContracts := ocInsert s.openContracts id openContract }

/-- The window-boundary half of the per-contract body of
`contractMaintenance` (source lines 127–159): missed-proof payout, audit
record, funds/failure update, and the unconditional `WindowSatisfied =
false` reset at a boundary. `none` models the Go panic of `% 0` when
`ChallengeFrequency` is zero (the modulus is evaluated before the
short-circuit conjunct `s.Height() > Start`). The unsigned Go subtraction
`s.Height() - Start` is only relevant when `Start < height`, which the
same conjunction requires, so truncated `Nat` subtraction is faithful. -/
def windowPhase (height : Nat) (oc : OpenContract)
    (u : List (OutputID × Output)) (bn : BlockNode) :
    Option (OpenContract × List (OutputID × Output) × BlockNode) :=
  if oc.fileContract.challengeFrequency = 0 then none
  else if (height - oc.fileContract.start) % oc.fileContract.challengeFrequency = 0
      ∧ oc.fileContract.start < height then
    if oc.windowSatisfied = false then
      let payout :=
        if oc.fundsRemaining < oc.fileContract.missedProofPayout
        then oc.fundsRemaining
        else oc.fileContract.missedProofPayout
      let newOutputID := oc.fileContract.StorageProofOutputID oc.contractID height false
      let output : Output := { value := payout, spendHash := oc.fileContract.missedProofAddress }
      let u := outInsert u newOutputID output
      let bn := { bn with
        missedStorageProofs :=
          bn.missedStorageProofs ++ [{ outputID := newOutputID, contractID := oc.contractID }] }
      some ({ oc with
        fundsRemaining := oc.fundsRemaining - payout
        failures := oc.failures + 1
        windowSatisfied := false }, u, bn)
    else
      some ({ oc with windowSatisfied := false }, u, bn)
  else
    some (oc, u, bn)

/-- The termination half of the per-contract body of `contractMaintenance`
(source lines 162–185): checks `FundsRemaining == 0 || End == height ||
Tolerance == Failures` on the post-window-phase record, creates the
termination output when funds remain, appends the record to the block's
`ContractTerminations`, and reports whether the contract is marked for
deletion. -/
def terminationPhase (height : Nat) (oc : OpenContract)
    (u : List (OutputID × Output)) (bn : BlockNode) :
    List (OutputID × Output) × BlockNode × Bool :=
  if oc.fundsRemaining = 0 ∨ oc.fileContract.end_ = height
      ∨ oc.fileContract.tolerance = oc.failures then
    let u :=
      if oc.fundsRemaining ≠ 0 then
        let contractStatus := oc.failures == oc.fileContract.tolerance
        let outputID :=
          oc.fileContract.ContractTerminationOutputID oc.contractID contractStatus
        let output : Output :=
          { value := oc.fundsRemaining
            spendHash :=
              if oc.fileContract.tolerance = oc.failures
              then oc.fileContract.missedProofAddress
              else oc.fileContract.validProofAddress }
        outInsert u outputID output
      else u
    (u, { bn with contractTerminations := bn.contractTerminations ++ [oc] }, true)
  else
    (u, bn, false)

/-- One full iteration of the `contractMaintenance` loop body for a single
open contract: window phase then termination phase. -/
def maintenanceStep (height : Nat) (oc : OpenContract)
    (u : List (OutputID × Output)) (bn : BlockNode) :
    Option (OpenContract × List (OutputID × Output) × BlockNode × Bool) :=
  match windowPhase height oc u bn with
  | none => none
  | some (oc, u, bn) =>
    match terminationPhase height oc u bn with
    | (u, bn, del) => some (oc, u, bn, del)

/-- The scan over all open contracts in `contractMaintenance`: threads the
unspent-output map and block node through each contract's maintenance step,
returns the updated contract records in place plus the accumulated
`contractsToDelete` list. The Go map iteration order is unspecified; the
model iterates in list order, one admissible order. -/
def maintainContracts (height : Nat) :
    List OpenContract → List (OutputID × Output) → BlockNode →
    Option (List OpenContract × List (OutputID × Output) × BlockNode × List Nat)
  | [], u, bn => some ([], u, bn, [])
  | oc :: rest, u, bn =>
    match maintenanceStep height oc u bn with
    | none => none
    | some (oc1, u1, bn1, del) =>
      match maintainContracts height rest u1 bn1 with
      | none => none
      | some (ocs, u2, bn2, dels) =>
        some (oc1 :: ocs, u2, bn2, if del then oc1.contractID :: dels else dels)

/-- `contractMaintenance` from `contracts.go`: scan every open contract,
then delete every contract marked for termination (deletion deferred past
the scan, as in the source). `none` models a Go panic during the scan. -/
def contractMaintenance (s : State) : Option State :=
  match maintainContracts s.height s.openContracts s.unspentOutputs s.blockNode with
  | none => none
  | some (ocs, u, bn, dels) =>
    some { s with
      openContracts := dels.foldl ocErase ocs
      unspentOutputs := u
      blockNode := bn }

/-- First loop of `inverseContractMaintenance` (source lines 198–202):
reinsert each terminated contract record and delete its termination output
(recomputing the failure-triggered flag from the record). Processes the
records in recorded order, as the Go `range` does. -/
def invertTerminations (ocs : List OpenContract) (u : List (OutputID × Output)) :
    List OpenContract → List OpenContract × List (OutputID × Output)
  | [] => (ocs, u)
  | oc :: rest =>
    let ocs1 := ocInsert ocs oc.contractID oc
    let contractStatus := oc.failures == oc.fileContract.tolerance
    let u1 := outErase u (oc.fileContract.ContractTerminationOutputID oc.contractID contractStatus)
    invertTerminations ocs1 u1 rest

/-- Second loop of `inverseContractMaintenance` (source lines 205–209):
for each missed-proof record, add the referenced output's value back to the
contract's funds (a Go map read of an absent output yields the zero
`Output`), decrement `Failures`, and delete the output. `none` models the
nil-pointer panic when the record's contract is not in the map. `Failures`
is unsigned in Go; on records produced by maintenance it is positive here,
so truncated `Nat` subtraction is faithful on every reachable input. -/
def invertMissedProofs (ocs : List OpenContract) (u : List (OutputID × Output)) :
    List MissedStorageProof → Option (List OpenContract × List (OutputID × Output))
  | [] => some (ocs, u)
  | msp :: rest =>
    match ocLookup ocs msp.contractID with
    | none => none
    | some _ =>
      let value := ((outLookup u msp.outputID).getD Output.zero).value
      let ocs1 := ocModify ocs msp.contractID
        (fun oc => { oc with
          fundsRemaining := oc.fundsRemaining + value
          failures := oc.failures - 1 })
      let u1 := outErase u msp.outputID
      invertMissedProofs ocs1 u1 rest

/-- `inverseContractMaintenance` from `contracts.go`: undo terminations,
then undo missed-proof outputs, all driven by the current block node's
audit lists. The block node itself is read, never written. -/
def inverseContractMaintenance (s : State) : Option State :=
  let p := invertTerminations s.openContracts s.unspentOutputs
    s.blockNode.contractTerminations
  (invertMissedProofs p.1 p.2 s.blockNode.missedStorageProofs).map
    (fun r => { s with openContracts := r.1, unspentOutputs := r.2 })

/-! ## Map helper lemmas -/

/-- Looking up the key just written by `ocInsert` yields the written record,
provided the record is keyed by its own `contractID` (as every insertion in
the source is). -/
theorem ocLookup_ocInsert_self (l : List OpenContract) (id : Nat)
    (oc : OpenContract) (h : oc.contractID = id) :
    ocLookup (ocInsert l id oc) id = some oc := by
  induction l with
  | nil => simp [ocInsert, ocLookup, h]
  | cons x xs ih =>
    by_cases hx : x.contractID = id
    · simp [ocInsert, hx, ocLookup, h]
    · simp [ocInsert, hx, ocLookup, ih]

/-- Looking up the key just written by `outInsert` yields the written value. -/
theorem outLookup_outInsert_self (l : List (OutputID × Output)) (k : OutputID)
    (v : Output) : outLookup (outInsert l k v) k = some v := by
  induction l with
  | nil => simp [outInsert, outLookup]
  | cons x xs ih =>
    by_cases hx : x.1 = k
    · simp [outInsert, hx, outLookup]
    · simp [outInsert, hx, outLookup, ih]

/-- `ocModify` commutes with lookup when the modification preserves the
`contractID` key. -/
theorem ocLookup_ocModify (l : List OpenContract) (id : Nat)
    (f : OpenContract → OpenContract)
    (hf : ∀ oc, (f oc).contractID = oc.contractID) :
    ocLookup (ocModify l id f) id = (ocLookup l id).map f := by
  induction l with
  | nil => simp [ocModify, ocLookup]
  | cons x xs ih =>
    by_cases hx : x.contractID = id
    · simp [ocModify, ocLookup, hx, hf]
    · simpa [ocModify, ocLookup, hx] using ih

/-- The source writes payouts as `if a < b then a else b`; this is `min`. -/
theorem if_lt_eq_min (a b : Int) : (if a < b then a else b) = min a b := by
  rw [min_def]
  split_ifs <;> omega

/-! ## Concrete fixtures -/

/-- The contract of the spec's worked scenario: `Start=10`, `End=20`,
`ChallengeFrequency=5`, `Tolerance=1`, `ContractFund=100`,
`ValidProofPayout=10`, `MissedProofPayout=20`, with distinguishable
valid-proof address `11` and missed-proof address `22`. -/
def fcBase : FileContract :=
  { contractFund := 100, start := 10, end_ := 20, challengeFrequency := 5,
    tolerance := 1, fileSize := 1000, fileMerkleRoot := 0,
    validProofPayout := 10, validProofAddress := 11,
    missedProofPayout := 20, missedProofAddress := 22 }

/-- An empty block node: the state of the audit lists at the start of a
block's maintenance pass. -/
def bn0 : BlockNode := { missedStorageProofs := [], contractTerminations := [] }

/-- An open contract over `fcBase` with full funds, no failures, and an
unsatisfied current window. -/
def oc0 : OpenContract :=
  { fileContract := fcBase, contractID := 7, fundsRemaining := 100,
    failures := 0, windowSatisfied := false }

/-- A height-15 state holding just `oc0`. -/
def s0 : State :=
  { height := 15, currentPath := [], openContracts := [oc0],
    unspentOutputs := [], blockNode := bn0 }

/-! ## C1 -/

/-- A contract that has had its current window satisfied by a proof in an
earlier block of the window (`WindowSatisfied = true`), with tolerance high
enough that nothing terminates at the next boundary. -/
def ocC1 : OpenContract :=
  { fileContract := { fcBase with tolerance := 2 }, contractID := 1,
    fundsRemaining := 90, failures := 0, windowSatisfied := true }

/-- Height 15 is a window boundary for `ocC1` (`(15-10) % 5 = 0`). -/
def sC1 : State :=
  { height := 15, currentPath := [], openContracts := [ocC1],
    unspentOutputs := [], blockNode := bn0 }

/-- C1: maintenance followed by inversion does NOT restore the ledger. At a
window boundary with `WindowSatisfied = true`, maintenance resets the flag
to `false` without leaving any audit record, and the inversion routine
leaves every other component untouched but never restores the flag: the
round trip returns the pre-state with `WindowSatisfied` stuck at `false`,
not the pre-state itself. -/
theorem maintenance_inversion_loses_windowSatisfied :
    ocC1.windowSatisfied = true ∧
    (contractMaintenance sC1).bind inverseContractMaintenance =
      some { sC1 with openContracts := [{ ocC1 with windowSatisfied := false }] } ∧
    ({ ocC1 with windowSatisfied := false } : OpenContract) ≠ ocC1 := by
  refine ⟨rfl, rfl, ?_⟩
  decide

/-! ## C2 -/

/-- A formation attempt reusing contract ID `7`, with a different fund. -/
def fcC2 : FileContract := { fcBase with contractFund := 55 }

/-- The record `addContract` builds for `fcC2` at ID `7`. -/
def ocC2new : OpenContract :=
  { fileContract := fcC2, contractID := 7, fundsRemaining := 55,
    failures := 0, windowSatisfied := true }

/-- C2 counterexample: `s0` already holds a contract under ID `7`, yet
`addContract` with that ID does not fail — it replaces the stored record
with the freshly built one. -/
theorem addContract_existing_id_replaced :
    ocLookup s0.openContracts 7 = some oc0 ∧
    ocLookup (addContract s0 fcC2 7).openContracts 7 = some ocC2new ∧
    ocC2new ≠ oc0 := by
  refine ⟨rfl, rfl, ?_⟩
  decide

/-- C2 amended: `addContract` performs no presence check: for every state
and ID (present or not) it unconditionally writes the fresh record —
`FundsRemaining = ContractFund`, `Failures = 0`, `WindowSatisfied = true` —
over whatever the map held; rejecting a double formation is left entirely
to the caller. -/
theorem addContract_unconditional_insert (s : State) (c : FileContract) (id : Nat) :
    ocLookup (addContract s c id).openContracts id =
      some { fileContract := c, contractID := id, fundsRemaining := c.contractFund,
             failures := 0, windowSatisfied := true } := by
  unfold addContract
  exact ocLookup_ocInsert_self _ _ _ rfl

/-- Witness for C2's amended theorem at a concrete double formation. -/
theorem addContract_unconditional_insert_witness :
    ocLookup (addContract s0 fcC2 7).openContracts 7 =
      some { fileContract := fcC2, contractID := 7, fundsRemaining := fcC2.contractFund,
             failures := 0, windowSatisfied := true } :=
  addContract_unconditional_insert s0 fcC2 7

/-! ## C3 -/

/-- A contract whose `Start` equals the current height of `sC3`. -/
def cC3 : FileContract := { fcBase with start := 5, end_ := 6 }

/-- A height-5 state with no open contracts. -/
def sC3 : State :=
  { height := 5, currentPath := [], openContracts := [],
    unspentOutputs := [], blockNode := bn0 }

/-- C3: the validity check uses `Start < height` for rejection, so a
contract with `Start` equal to the current height is ACCEPTED, although the
code's own error string demands that the contract "start in the future";
the spec's `Start > currentHeight` is the stated intent and the strict
comparison in the code is off by one. -/
theorem validContract_accepts_start_equal_height :
    cC3.start = sC3.height ∧ validContract sC3 cC3 = Except.ok () := ⟨rfl, rfl⟩

/-! ## C4 -/

/-- An open contract (window starts only above height 10) in a height-5
state: no active challenge window. -/
def ocC4 : OpenContract :=
  { fileContract := fcBase, contractID := 4, fundsRemaining := 100,
    failures := 0, windowSatisfied := false }

/-- Height 5 is before `ocC4`'s `Start`, so `WindowIndex` fails. -/
def sC4 : State :=
  { height := 5, currentPath := [], openContracts := [ocC4],
    unspentOutputs := [], blockNode := bn0 }

/-- A storage proof naming contract `4`. -/
def spC4 : StorageProof := { contractID := 4, segment := 0, hashSet := [] }

/-- C4 counterexample: with no active window, `currentProofIndex` does not
fail — the `WindowIndex` error is swallowed by a bare `return` and the
caller receives the named result's zero value `0`, an ordinary in-range
segment index (`0 < FileSize`), indistinguishable from a genuinely derived
index `0`. -/
theorem currentProofIndex_no_window_returns_index :
    ocC4.fileContract.WindowIndex sC4.height = Except.error WindowErr.noWindow ∧
    currentProofIndex (fun _ => 0) sC4 spC4 = some 0 ∧
    0 < ocC4.fileContract.fileSize := by
  refine ⟨rfl, rfl, ?_⟩
  decide

/-- C4 amended: whenever the contract exists but `WindowIndex` fails for
the current height, `currentProofIndex` silently returns the segment index
`0` (the named return's zero value): the failure is not propagated and the
caller cannot distinguish it from a derived index. -/
theorem currentProofIndex_no_window_returns_zero (hashB : List Nat → Nat)
    (s : State) (sp : StorageProof) (oc : OpenContract)
    (hoc : ocLookup s.openContracts sp.contractID = some oc)
    (hw : oc.fileContract.WindowIndex s.height = Except.error WindowErr.noWindow) :
    currentProofIndex hashB s sp = some 0 := by
  simp [currentProofIndex, hoc, hw]

/-- Witness for C4's amended theorem at the concrete no-window state. -/
theorem currentProofIndex_no_window_returns_zero_witness :
    currentProofIndex (fun _ => 0) sC4 spC4 = some 0 :=
  currentProofIndex_no_window_returns_zero (fun _ => 0) sC4 spC4 ocC4 rfl rfl

/-! ## C5 -/

/-- A state in which the deterministic valid-proof output ID for contract
`7` at height `15` is ALREADY occupied by an old output. -/
def sC5 : State :=
  { height := 15, currentPath := [], openContracts := [oc0],
    unspentOutputs :=
      [(OutputID.storageProof 7 15 true, { value := 999, spendHash := 8 })],
    blockNode := bn0 }

/-- A storage proof naming contract `7`. -/
def spC5 : StorageProof := { contractID := 7, segment := 0, hashSet := [] }

/-- C5 counterexample: applying a storage proof while the valid-proof
output ID is already occupied does not fail fatally — the call succeeds and
the old output at that ID is silently overwritten with the new payout
output. The only fatal path in the source guards the output-ID derivation
itself, not map collisions. -/
theorem applyStorageProof_overwrites_existing_output :
    outLookup sC5.unspentOutputs (OutputID.storageProof 7 15 true) =
      some { value := 999, spendHash := 8 } ∧
    (applyStorageProof sC5 spC5).map
        (fun s => outLookup s.unspentOutputs (OutputID.storageProof 7 15 true)) =
      some (some { value := 10, spendHash := 11 }) ∧
    ({ value := 10, spendHash := 11 } : Output) ≠ { value := 999, spendHash := 8 } := by
  refine ⟨rfl, rfl, ?_⟩
  decide

/-- C5 amended: for every open contract, `applyStorageProof` succeeds and
after it the unspent-output map holds the freshly created payout output at
the valid-proof output ID, regardless of what (if anything) that ID
previously mapped to: existing entries are replaced, never detected. -/
theorem applyStorageProof_unconditional_write (s : State) (sp : StorageProof)
    (oc : OpenContract) (hoc : ocLookup s.openContracts sp.contractID = some oc) :
    ∃ s', applyStorageProof s sp = some s' ∧
      outLookup s'.unspentOutputs (OutputID.storageProof oc.contractID s.height true) =
        some { value := if oc.fundsRemaining < oc.fileContract.validProofPayout
                        then oc.fundsRemaining else oc.fileContract.validProofPayout,
               spendHash := oc.fileContract.validProofAddress } := by
  unfold applyStorageProof
  rw [hoc]
  exact ⟨_, rfl, outLookup_outInsert_self _ _ _⟩

/-- Witness for C5's amended theorem at the concrete collision state. -/
theorem applyStorageProof_unconditional_write_witness :
    ∃ s', applyStorageProof sC5 spC5 = some s' ∧
      outLookup s'.unspentOutputs (OutputID.storageProof oc0.contractID sC5.height true) =
        some { value := if oc0.fundsRemaining < oc0.fileContract.validProofPayout
                        then oc0.fundsRemaining else oc0.fileContract.validProofPayout,
               spendHash := oc0.fileContract.validProofAddress } :=
  applyStorageProof_unconditional_write sC5 spC5 oc0 rfl

/-! ## C6 -/

/-- C6: applying a storage proof for an open contract creates the unspent
output `Value = min(FundsRemaining, ValidProofPayout)`, `SpendHash =
ValidProofAddress` at the valid-proof output ID, decrements the contract's
`FundsRemaining` by exactly that payout, and sets `WindowSatisfied`. -/
theorem applyStorageProof_payout_min_and_flags (s : State) (sp : StorageProof)
    (oc : OpenContract) (hoc : ocLookup s.openContracts sp.contractID = some oc) :
    ∃ s', applyStorageProof s sp = some s' ∧
      outLookup s'.unspentOutputs (OutputID.storageProof oc.contractID s.height true) =
        some { value := min oc.fundsRemaining oc.fileContract.validProofPayout,
               spendHash := oc.fileContract.validProofAddress } ∧
      ocLookup s'.openContracts sp.contractID =
        some { oc with
          windowSatisfied := true,
          fundsRemaining :=
            oc.fundsRemaining - min oc.fundsRemaining oc.fileContract.validProofPayout } := by
  unfold applyStorageProof
  rw [hoc]
  refine ⟨_, rfl, ?_, ?_⟩
  · rw [← if_lt_eq_min]
    exact outLookup_outInsert_self _ _ _
  · rw [ocLookup_ocModify s.openContracts sp.contractID
      (fun oc1 => { oc1 with
        windowSatisfied := true,
        fundsRemaining := oc1.fundsRemaining -
          (if oc.fundsRemaining < oc.fileContract.validProofPayout
           then oc.fundsRemaining else oc.fileContract.validProofPayout) })
      (fun _ => rfl), hoc, ← if_lt_eq_min]
    rfl

/-- Witness for C6 at a concrete state: contract `7`, funds `100`, payout
`10`. -/
theorem applyStorageProof_payout_min_and_flags_witness :
    ∃ s', applyStorageProof s0 spC5 = some s' ∧
      outLookup s'.unspentOutputs (OutputID.storageProof oc0.contractID s0.height true) =
        some { value := min oc0.fundsRemaining oc0.fileContract.validProofPayout,
               spendHash := oc0.fileContract.validProofAddress } ∧
      ocLookup s'.openContracts spC5.contractID =
        some { oc0 with
          windowSatisfied := true,
          fundsRemaining :=
            oc0.fundsRemaining - min oc0.fundsRemaining oc0.fileContract.validProofPayout } :=
  applyStorageProof_payout_min_and_flags s0 spC5 oc0 rfl

/-! ## C7 -/

/-- The state `contractMaintenance` produces from `s0` (the spec's worked
scenario: `Start=10, End=20, ChallengeFrequency=5, Tolerance=1,
ContractFund=100, MissedProofPayout=20`, unsatisfied window, height 15). -/
def sC7post : State :=
  { height := 15, currentPath := [], openContracts := [],
    unspentOutputs :=
      [(OutputID.storageProof 7 15 false, { value := 20, spendHash := 22 }),
       (OutputID.contractTermination 7 true, { value := 80, spendHash := 22 })],
    blockNode :=
      { missedStorageProofs :=
          [{ outputID := OutputID.storageProof 7 15 false, contractID := 7 }],
        contractTerminations := [{ oc0 with fundsRemaining := 80, failures := 1 }] } }

/-- C7: one maintenance pass at the height-15 boundary creates the
missed-proof output of value `20` to the missed-proof address, records the
contract at `FundsRemaining = 80`, `Failures = 1` in the termination audit
record, creates — in the same call, since `Failures` now equals `Tolerance`
— the failure-triggered termination output of value `80` to the
missed-proof address at a distinct deterministic ID, and removes the
open-contract entry. -/
theorem contractMaintenance_miss_then_terminate_scenario :
    contractMaintenance s0 = some sC7post ∧
    outLookup sC7post.unspentOutputs (OutputID.storageProof 7 15 false) =
      some { value := 20, spendHash := oc0.fileContract.missedProofAddress } ∧
    outLookup sC7post.unspentOutputs (OutputID.contractTermination 7 true) =
      some { value := 80, spendHash := oc0.fileContract.missedProofAddress } ∧
    sC7post.blockNode.contractTerminations =
      [{ oc0 with fundsRemaining := 80, failures := 1 }] ∧
    ocLookup sC7post.openContracts 7 = none := by
  exact ⟨rfl, rfl, rfl, rfl, rfl⟩

/-! ## C8 -/

/-- C8: whenever the termination phase of maintenance marks a contract for
deletion while its remaining funds are nonzero, the unspent-output map
afterwards holds, at the deterministic termination output ID keyed by the
failure-triggered flag `Failures == Tolerance`, an output carrying the full
remaining funds, destined to the missed-proof address when failure-triggered
and to the valid-proof address otherwise. -/
theorem terminationPhase_full_funds_and_destination (height : Nat)
    (oc : OpenContract) (u : List (OutputID × Output)) (bn : BlockNode)
    (u' : List (OutputID × Output)) (bn' : BlockNode)
    (hrun : terminationPhase height oc u bn = (u', bn', true))
    (hfr : oc.fundsRemaining ≠ 0) :
    outLookup u'
        (OutputID.contractTermination oc.contractID
          (oc.failures == oc.fileContract.tolerance)) =
      some { value := oc.fundsRemaining,
             spendHash :=
               if oc.failures = oc.fileContract.tolerance
               then oc.fileContract.missedProofAddress
               else oc.fileContract.validProofAddress } := by
  by_cases hcond : oc.fundsRemaining = 0 ∨ oc.fileContract.end_ = height
      ∨ oc.fileContract.tolerance = oc.failures
  · rw [terminationPhase, if_pos hcond, if_pos hfr] at hrun
    injection hrun with hu hrest
    subst hu
    unfold FileContract.ContractTerminationOutputID
    rw [outLookup_outInsert_self]
    by_cases htol : oc.failures = oc.fileContract.tolerance
    · simp [htol]
    · have htol' : ¬ oc.fileContract.tolerance = oc.failures := fun h => htol h.symm
      simp [htol, htol']
  · rw [terminationPhase, if_neg hcond] at hrun
    exact absurd hrun (by simp)

/-- Witness for C8: the contract of the worked scenario right after its
missed proof (`FundsRemaining = 80`, `Failures = 1 = Tolerance`). -/
def ocC8 : OpenContract := { oc0 with fundsRemaining := 80, failures := 1 }

/-- The outputs and block node the termination phase produces for `ocC8`. -/
def uC8 : List (OutputID × Output) :=
  [(OutputID.contractTermination 7 true, { value := 80, spendHash := 22 })]

/-- Block node recording `ocC8`'s termination. -/
def bnC8 : BlockNode := { missedStorageProofs := [], contractTerminations := [ocC8] }

/-- Witness for C8's theorem at the concrete failure-triggered termination. -/
theorem terminationPhase_full_funds_and_destination_witness :
    outLookup uC8
        (OutputID.contractTermination ocC8.contractID
          (ocC8.failures == ocC8.fileContract.tolerance)) =
      some { value := ocC8.fundsRemaining,
             spendHash :=
               if ocC8.failures = ocC8.fileContract.tolerance
               then ocC8.fileContract.missedProofAddress
               else ocC8.fileContract.validProofAddress } :=
  terminationPhase_full_funds_and_destination 15 ocC8 [] bn0 uC8 bnC8 rfl (by decide)

/-! ## C9 -/

/-- The worked-scenario contract under ID `2` right after a missed proof
(the shape a maintenance pass leaves behind at height 15). -/
def ocC9 : OpenContract :=
  { oc0 with contractID := 2, fundsRemaining := 80, failures := 1 }

/-- A height-15 state whose current block node carries a missed-proof audit
record for contract `2`, with the corresponding output still unspent. -/
def sC9 : State :=
  { height := 15, currentPath := [], openContracts := [ocC9],
    unspentOutputs :=
      [(OutputID.storageProof 2 15 false, { value := 20, spendHash := 22 })],
    blockNode :=
      { missedStorageProofs :=
          [{ outputID := OutputID.storageProof 2 15 false, contractID := 2 }],
        contractTerminations := [] } }

/-- The state the inversion routine produces from `sC9`: funds and failure
count restored, output deleted — audit record still attached. -/
def sC9post : State :=
  { sC9 with
    openContracts := [{ ocC9 with fundsRemaining := 100, failures := 0 }],
    unspentOutputs := [] }

/-- C9 counterexample: the inversion routine consumes the block's
missed-proof audit record (funds restored, failure count decremented,
output deleted) but does NOT clear the list: the record remains attached to
the block's metadata node after inversion completes. -/
theorem inverseContractMaintenance_record_not_cleared :
    inverseContractMaintenance sC9 = some sC9post ∧
    sC9post.blockNode.missedStorageProofs = sC9.blockNode.missedStorageProofs ∧
    sC9.blockNode.missedStorageProofs ≠ [] := by
  refine ⟨rfl, rfl, ?_⟩
  decide

/-- C9 amended: the inversion routine reads the block's audit lists to undo
maintenance but never writes the block node: whenever it completes, the
block's `MissedStorageProofs` and `ContractTerminations` lists are exactly
what they were before the call — consumed, but left attached, not emptied. -/
theorem inverseContractMaintenance_blockNode_unchanged (s s' : State)
    (h : inverseContractMaintenance s = some s') :
    s'.blockNode = s.blockNode := by
  unfold inverseContractMaintenance at h
  obtain ⟨r, -, hf⟩ := Option.map_eq_some'.mp h
  rw [← hf]

/-- Witness for C9's amended theorem at the concrete inversion. -/
theorem inverseContractMaintenance_blockNode_unchanged_witness :
    sC9post.blockNode = sC9.blockNode :=
  inverseContractMaintenance_blockNode_unchanged sC9 sC9post rfl

/-! ## C10 -/

/-- C10: for an open contract that has an active challenge window but
`FileSize = 0`, `currentProofIndex` reaches `seed mod FileSize` with a zero
modulus — a division by zero (`big.Int.Mod` panics), modelled as `none` —
for every possible hash function; the index computation is well-defined
only under the unstated precondition `FileSize > 0`. -/
theorem currentProofIndex_fileSize_zero_division_by_zero
    (hashB : List Nat → Nat) (s : State) (sp : StorageProof)
    (oc : OpenContract) (wi : Nat)
    (hoc : ocLookup s.openContracts sp.contractID = some oc)
    (hw : oc.fileContract.WindowIndex s.height = Except.ok wi)
    (hfs : oc.fileContract.fileSize = 0) :
    currentProofIndex hashB s sp = none := by
  simp [currentProofIndex, hoc, hw, hfs]

/-- A zero-size contract with an active window at height 12. -/
def ocC10 : OpenContract :=
  { oc0 with contractID := 10, fileContract := { fcBase with fileSize := 0 } }

/-- Height-12 state holding the zero-size contract. -/
def sC10 : State :=
  { height := 12, currentPath := [], openContracts := [ocC10],
    unspentOutputs := [], blockNode := bn0 }

/-- A storage proof naming the zero-size contract. -/
def spC10 : StorageProof := { contractID := 10, segment := 0, hashSet := [] }

/-- Witness for C10 at the concrete zero-size contract inside its active
window. -/
theorem currentProofIndex_fileSize_zero_division_by_zero_witness :
    currentProofIndex (fun _ => 0) sC10 spC10 = none :=
  currentProofIndex_fileSize_zero_division_by_zero (fun _ => 0) sC10 spC10
    ocC10 0 rfl rfl rfl
